import Mathlib

/-!
Verification of the input-capture and tick-encoding pipeline of the
DOOMSat ground station (`src/ground_station/app.py`, with `src/app.py` a
keyboard-only subset of the same page).  The `KeyRecordingPage` state and
its callbacks (`read_state`, `handle_gamepad_button`, `handle_gamepad_axis`,
`keyPressEvent`, `keyReleaseEvent`, `update_bar`) are embedded as pure
functions on an explicit state record.  The `messages` module
(`DOOMKeystroke`, the tick lists, the codec) is not part of the sources at
hand; its operations are modelled from the specification and marked as such.
Times are milliseconds as natural numbers; Python's arbitrary-precision
integers become `Nat`/`Int`; Python's `x & ~y` on non-negative masks is
`Nat.ldiff x y`.
-/

/-- The stick dead zone, raw units (`DEADZONE = 8000` in `handle_gamepad_axis`). -/
def DEADZONE : Nat := 8000

/-- `KeyRecordingPage.KEYSTROKE_TIMEOUT_MS = 2_000`. -/
def KEYSTROKE_TIMEOUT_MS : Nat := 2000

/-- SDL3 constant: left-stick X axis id. -/
def SDL_GAMEPAD_AXIS_LEFTX : Nat := 0

/-- SDL3 constant: left-stick Y axis id. -/
def SDL_GAMEPAD_AXIS_LEFTY : Nat := 1

/-- Modelled from the spec: the `DOOMKeystroke` record of the `messages`
module (absent from the sources) — three fixed key-code slots (sentinel 0
for an unused slot) plus one modifier bitmask. -/
structure DOOMKeystroke where
  keys : Nat × Nat × Nat
  modifiers : Nat
deriving DecidableEq, Repr

/-- Modelled from the spec: one gamepad tick of `DOOMGamepadTickList` —
two signed left-stick axis values plus one button/auxiliary bitmask. -/
structure DOOMGamepadTick where
  axis_x : Int
  axis_y : Int
  buttons : Nat
deriving DecidableEq, Repr

/-- HID modifier key codes occupy the range `0xE0`–`0xE7`. -/
def isModifierKey (c : Nat) : Bool := decide (0xE0 ≤ c ∧ c ≤ 0xE7)

/-- Bit position of a HID modifier key in the modifier bitmask. -/
def modifierBit (c : Nat) : Nat := 2 ^ (c - 0xE0)

/-- Ordered duplicate-free insertion; the active key set of the page is
modelled as its canonical ascending list, so Python set `add` becomes
`insertKey` and `discard` becomes `List.erase`. -/
def insertKey (k : Nat) : List Nat → List Nat
  | [] => [k]
  | a :: as => if k < a then k :: a :: as else if k = a then a :: as else a :: insertKey k as

/-- Modelled from the spec: `DOOMKeystroke.from_qt_keys` of the `messages`
module (absent from the sources) — builds one keystroke tick from the set
of currently active key codes (given as its canonical ascending list):
modifier keys fold into the modifier bitmask at their HID-defined bit
positions, and the first three non-modifier codes in ascending order fill
the key slots (unused slots hold the sentinel 0). -/
def DOOMKeystroke.from_qt_keys (ks : List Nat) : DOOMKeystroke :=
  let plain := ks.filter (fun c => isModifierKey c = false)
  let mods := (ks.filter (fun c => isModifierKey c = true)).foldl
    (fun m c => m ||| modifierBit c) 0
  { keys := (plain.getD 0 0, plain.getD 1 0, plain.getD 2 0), modifiers := mods }

/-- A keystroke tick is idle when it records no key codes and a zero
modifier mask. -/
def isIdleKeystroke (t : DOOMKeystroke) : Bool :=
  decide (t.keys = (0, 0, 0) ∧ t.modifiers = 0)

/-- A gamepad tick is idle when both axes are within the dead zone and the
button mask is zero. -/
def isIdleGamepad (t : DOOMGamepadTick) : Bool :=
  decide (t.axis_x.natAbs < DEADZONE ∧ t.axis_y.natAbs < DEADZONE ∧ t.buttons = 0)

/-- Modelled from the spec: `remove_trailing_idles` of the tick-list
classes in the `messages` module (absent from the sources) — scans from
the end of the sequence backward and removes every idle tick until the
first non-idle tick from the end (emptying the list if every tick is
idle). -/
def remove_trailing_idles (idle : α → Bool) (l : List α) : List α :=
  (l.reverse.dropWhile idle).reverse

/-- Modelled from the spec: `CorruptRecordError` — decode of a malformed
fixed-width buffer: truncated length or out-of-range field. -/
inductive CorruptRecordError where
  | truncated
  | out_of_range
deriving DecidableEq, Repr

/-- Modelled from the spec: the fixed-width encoding of one keystroke tick
— the three key-slot bytes followed by the modifier-mask byte. -/
def encode_keystroke_tick (t : DOOMKeystroke) : List Nat :=
  [t.keys.1, t.keys.2.1, t.keys.2.2, t.modifiers]

/-- Modelled from the spec: the inverse of `encode_keystroke_tick`;
a buffer of the wrong length or with an out-of-range byte signals a
`CorruptRecordError`. -/
def decode_keystroke_tick (bs : List Nat) : Except CorruptRecordError DOOMKeystroke :=
  match bs with
  | [a, b, c, d] =>
    if a < 256 ∧ b < 256 ∧ c < 256 ∧ d < 256 then
      .ok { keys := (a, b, c), modifiers := d }
    else .error .out_of_range
  | _ => .error .truncated

/-- Two's-complement image of a signed 16-bit value in `0, …, 2^16 - 1`. -/
def u16ofInt (x : Int) : Nat := (x % 65536).toNat

/-- Signed interpretation of an unsigned 16-bit value. -/
def intOfU16 (u : Nat) : Int := if u < 32768 then (u : Int) else (u : Int) - 65536

/-- Modelled from the spec: the fixed-width encoding of one gamepad tick —
each axis as a little-endian two's-complement 16-bit field, then the
16-bit button mask. -/
def encode_gamepad_tick (t : DOOMGamepadTick) : List Nat :=
  let ux := u16ofInt t.axis_x
  let uy := u16ofInt t.axis_y
  [ux % 256, ux / 256, uy % 256, uy / 256, t.buttons % 256, t.buttons / 256]

/-- Modelled from the spec: the inverse of `encode_gamepad_tick`. -/
def decode_gamepad_tick (bs : List Nat) : Except CorruptRecordError DOOMGamepadTick :=
  match bs with
  | [a, b, c, d, e, f] =>
    if a < 256 ∧ b < 256 ∧ c < 256 ∧ d < 256 ∧ e < 256 ∧ f < 256 then
      .ok { axis_x := intOfU16 (a + 256 * b), axis_y := intOfU16 (c + 256 * d),
            buttons := e + 256 * f }
    else .error .out_of_range
  | _ => .error .truncated

/-- A keystroke tick is valid when each slot holds a byte-sized key code
and the modifier mask is one byte. -/
def ValidKeystrokeTick (t : DOOMKeystroke) : Prop :=
  t.keys.1 < 256 ∧ t.keys.2.1 < 256 ∧ t.keys.2.2 < 256 ∧ t.modifiers < 256

instance : DecidablePred ValidKeystrokeTick := fun t => by
  unfold ValidKeystrokeTick; infer_instance

/-- A gamepad tick is valid when each axis is a signed 16-bit value and
the button mask fits 16 bits. -/
def ValidGamepadTick (t : DOOMGamepadTick) : Prop :=
  -32768 ≤ t.axis_x ∧ t.axis_x < 32768 ∧ -32768 ≤ t.axis_y ∧ t.axis_y < 32768 ∧
    t.buttons < 65536

instance : DecidablePred ValidGamepadTick := fun t => by
  unfold ValidGamepadTick; infer_instance

/-- Modelled from the spec: `size_in_bytes` of `DOOMKeystrokeList` (absent
from the sources) — the total number of bytes of the encoded stream. -/
def DOOMKeystrokeList.size_in_bytes (l : List DOOMKeystroke) : Nat :=
  (l.map encode_keystroke_tick).flatten.length

/-- Modelled from the spec: `size_in_bytes` of `DOOMGamepadTickList`
(absent from the sources) — the total number of bytes of the encoded
stream. -/
def DOOMGamepadTickList.size_in_bytes (l : List DOOMGamepadTick) : Nat :=
  (l.map encode_gamepad_tick).flatten.length

/-- The fixed encoded width of one keystroke tick. -/
def KEYSTROKE_TICK_WIDTH : Nat := 4

/-- The fixed encoded width of one gamepad tick. -/
def GAMEPAD_TICK_WIDTH : Nat := 6

/-- The mutable state of a `KeyRecordingPage`: the sampler fields
(`active_keys`, `joystick_x`, `joystick_y`, `active_joystick_keys`,
`last_key_update`, the two tick buffers), the history entries handed to
the tree model by `add_keyset_entry` / `add_gamepad_entry`, and the
recording-indicator widget fields driven by `update_bar`. -/
structure PageState where
  active_keys : List Nat
  joystick_x : Int
  joystick_y : Int
  active_joystick_keys : Nat
  last_key_update : Nat
  key_list : List DOOMKeystroke
  joystick_list : List DOOMGamepadTick
  key_history : List (List DOOMKeystroke)
  gamepad_history : List (List DOOMGamepadTick)
  ind_active : Bool
  ind_remaining : Nat
deriving DecidableEq

/-- The state of a freshly constructed `KeyRecordingPage`. -/
def init_state : PageState :=
  { active_keys := [], joystick_x := 0, joystick_y := 0, active_joystick_keys := 0,
    last_key_update := 0, key_list := [], joystick_list := [],
    key_history := [], gamepad_history := [], ind_active := false, ind_remaining := 0 }

/-- `KeyRecordingPage.joystick_active`: the gamepad channel is active when
either recorded axis or the button mask is non-zero. -/
def joystick_active (s : PageState) : Bool :=
  decide (s.joystick_x ≠ 0 ∨ s.joystick_y ≠ 0 ∨ s.active_joystick_keys ≠ 0)

/-- The condition of the finalization branch of `read_state`: no keyboard
key active, gamepad channel inactive, and strictly more than the idle
timeout elapsed since `last_key_update`. -/
def finalize_cond (now : Nat) (s : PageState) : Prop :=
  s.active_keys = [] ∧ joystick_active s = false ∧
    KEYSTROKE_TIMEOUT_MS < now - s.last_key_update

instance (now : Nat) (s : PageState) : Decidable (finalize_cond now s) := by
  unfold finalize_cond; infer_instance

/-- `KeyRecordingPage.read_state`, the 30 Hz sampler tick: under
`finalize_cond` each non-empty buffer is trimmed, handed to the history
and cleared; otherwise one keystroke tick built from `active_keys` is
appended to `key_list` (no path appends to `joystick_list`). -/
def read_state (now : Nat) (s : PageState) : PageState :=
  if finalize_cond now s then
    let s1 := if s.key_list = [] then s else
      { s with
        key_history := s.key_history ++ [remove_trailing_idles isIdleKeystroke s.key_list],
        key_list := [] }
    if s1.joystick_list = [] then s1 else
      { s1 with
        gamepad_history :=
          s1.gamepad_history ++ [remove_trailing_idles isIdleGamepad s1.joystick_list],
        joystick_list := [] }
  else
    { s with key_list := s.key_list ++ [DOOMKeystroke.from_qt_keys s.active_keys] }

/-- `KeyRecordingPage.handle_gamepad_button`; `btnMap` is the
`SDL_BUTTONS_TO_BUTTON_CODES` lookup of the `messages` module, `now` the
value `perf_counter_ms()` returns during the call. -/
def handle_gamepad_button (btnMap : Nat → Option Nat) (now : Nat) (button_id : Nat)
    (pressed : Bool) (s : PageState) : PageState :=
  match btnMap button_id with
  | none => s
  | some code =>
    { s with
      active_joystick_keys :=
        if pressed then s.active_joystick_keys ||| code
        else Nat.ldiff s.active_joystick_keys code,
      last_key_update := now }

/-- `KeyRecordingPage.handle_gamepad_axis`; `axesMap` is the
`SDL_AXES_TO_BUTTON_CODES` lookup of the `messages` module. -/
def handle_gamepad_axis (axesMap : Nat → Option Nat) (now : Nat) (axis : Nat)
    (value : Int) (s : PageState) : PageState :=
  if axis = SDL_GAMEPAD_AXIS_LEFTX then
    { s with
      last_key_update := now,
      joystick_x := if DEADZONE ≤ value.natAbs then value else 0 }
  else if axis = SDL_GAMEPAD_AXIS_LEFTY then
    { s with
      last_key_update := now,
      joystick_y := if DEADZONE ≤ value.natAbs then value else 0 }
  else
    match axesMap axis with
    | none => s
    | some code =>
      { s with
        active_joystick_keys :=
          if DEADZONE * 2 ≤ value.natAbs then s.active_joystick_keys ||| code
          else Nat.ldiff s.active_joystick_keys code,
        last_key_update := now }

/-- `KeyRecordingPage.keyPressEvent` with a non-null event carrying `key`. -/
def keyPressEvent (now : Nat) (key : Nat) (s : PageState) : PageState :=
  { s with active_keys := insertKey key s.active_keys, last_key_update := now }

/-- `KeyRecordingPage.keyReleaseEvent` with a non-null event carrying `key`. -/
def keyReleaseEvent (now : Nat) (key : Nat) (s : PageState) : PageState :=
  { s with active_keys := s.active_keys.erase key, last_key_update := now }

/-- `KeyRecordingPage.update_bar`, the 60 Hz display-indicator tick. -/
def update_bar (now : Nat) (s : PageState) : PageState :=
  if s.active_keys ≠ [] then
    { s with ind_remaining := KEYSTROKE_TIMEOUT_MS, ind_active := true }
  else if s.key_list ≠ [] then
    { s with
      ind_remaining := KEYSTROKE_TIMEOUT_MS - (now - s.last_key_update),
      ind_active := true }
  else
    { s with ind_active := false }

/-- The idle keystroke tick: no key codes, zero modifier mask. -/
def idleK : DOOMKeystroke := { keys := (0, 0, 0), modifiers := 0 }

/-- A non-idle keystroke tick (key code 4 in the first slot). -/
def activeK : DOOMKeystroke := { keys := (4, 0, 0), modifiers := 0 }

/-- State right after a key press of code 4 at t = 10 ms. -/
def sPress : PageState := keyPressEvent 10 4 init_state

/-- State reached from `init_state` by pressing key 4 at t = 10 ms,
releasing it at t = 11 ms, and sampling once at t = 40 ms: the buffer
holds a single idle tick. -/
def sAllIdle : PageState := read_state 40 (keyReleaseEvent 11 4 sPress)

/-- A buffered non-idle tick with the inputs long released. -/
def sActiveBuf : PageState := { init_state with key_list := [activeK], last_key_update := 11 }

/-- `init_state` with a non-zero `last_key_update`, for the timestamp claims. -/
def s8 : PageState := { init_state with last_key_update := 50 }

/-- An empty SDL-code lookup: no button or auxiliary axis is mapped. -/
def axMapNone : Nat → Option Nat := fun _ => none

/-- A lookup mapping auxiliary axis 4 to the digital bit `2 ^ 3`. -/
def axMapW : Nat → Option Nat := fun a => if a = 4 then some (2 ^ 3) else none

/-- A concrete valid keystroke tick for the codec round trip. -/
def kW : DOOMKeystroke := { keys := (4, 5, 6), modifiers := 3 }

/-- A concrete valid gamepad tick for the codec round trip. -/
def gW : DOOMGamepadTick := { axis_x := -12000, axis_y := 300, buttons := 5 }

/-- The head of a `dropWhile` result never satisfies the dropped predicate. -/
theorem head?_dropWhile_false (p : α → Bool) :
    ∀ (xs : List α) (x : α), (xs.dropWhile p).head? = some x → p x = false := by
  intro xs
  induction xs with
  | nil => intro x h; simp [List.dropWhile] at h
  | cons a as ih =>
    intro x h
    rw [List.dropWhile_cons] at h
    by_cases hp : p a
    · rw [if_pos hp] at h
      exact ih x h
    · rw [if_neg hp] at h
      simp only [List.head?_cons, Option.some.injEq] at h
      subst h
      simpa using hp

/-- `remove_trailing_idles` splits the stream into the kept prefix and a
removed suffix of idle ticks, and the kept prefix never ends idle. -/
theorem remove_trailing_idles_spec (p : α → Bool) (l : List α) :
    l = remove_trailing_idles p l ++ (l.reverse.takeWhile p).reverse ∧
    (∀ x ∈ (l.reverse.takeWhile p).reverse, p x = true) ∧
    (∀ x, (remove_trailing_idles p l).getLast? = some x → p x = false) := by
  refine ⟨?_, ?_, ?_⟩
  · unfold remove_trailing_idles
    rw [← List.reverse_append, List.takeWhile_append_dropWhile, List.reverse_reverse]
  · intro x hx
    rw [List.mem_reverse] at hx
    exact List.mem_takeWhile_imp hx
  · intro x hx
    unfold remove_trailing_idles at hx
    rw [List.getLast?_reverse] at hx
    exact head?_dropWhile_false p l.reverse x hx

/-- C1: on a sampler tick the segmenter finalizes exactly under
`finalize_cond` (no active keyboard key, gamepad channel inactive, and
strictly more than 2000 ms since the last input change); in that case each
non-empty buffered stream is trimmed of trailing idles, handed to the
history collaborator, and cleared, while an already-empty pair of buffers
leaves the state untouched; outside the condition no recording is emitted. -/
theorem c1_segmentation (now : Nat) (s : PageState) :
    (finalize_cond now s →
      ((s.key_list = [] → (read_state now s).key_list = [] ∧
          (read_state now s).key_history = s.key_history) ∧
       (s.key_list ≠ [] → (read_state now s).key_list = [] ∧
          (read_state now s).key_history =
            s.key_history ++ [remove_trailing_idles isIdleKeystroke s.key_list]) ∧
       (s.joystick_list = [] → (read_state now s).joystick_list = [] ∧
          (read_state now s).gamepad_history = s.gamepad_history) ∧
       (s.joystick_list ≠ [] → (read_state now s).joystick_list = [] ∧
          (read_state now s).gamepad_history =
            s.gamepad_history ++ [remove_trailing_idles isIdleGamepad s.joystick_list]) ∧
       (s.key_list = [] ∧ s.joystick_list = [] → read_state now s = s))) ∧
    (¬ finalize_cond now s →
      (read_state now s).key_history = s.key_history ∧
      (read_state now s).gamepad_history = s.gamepad_history ∧
      (read_state now s).key_list ≠ [] ∧
      (read_state now s).joystick_list = s.joystick_list) := by
  constructor
  · intro hc
    by_cases hk : s.key_list = [] <;> by_cases hj : s.joystick_list = [] <;>
      simp [read_state, hc, hk, hj]
  · intro hc
    simp [read_state, hc]

/-- Witness for `c1_segmentation` at a concrete state: one buffered
non-idle tick, inputs released for more than the timeout. -/
theorem c1_segmentation_witness :
    (read_state 2500 sActiveBuf).key_list = [] ∧
    (read_state 2500 sActiveBuf).key_history =
      sActiveBuf.key_history ++ [remove_trailing_idles isIdleKeystroke sActiveBuf.key_list] :=
  ((c1_segmentation 2500 sActiveBuf).1 (by decide)).2.1 (by decide)

/-- C2 counterexample: from the initial state, press key 4 at t = 10 ms,
release it at t = 11 ms, sample once at t = 40 ms (buffering one idle
tick), then sample at t = 2500 ms.  The finalization branch is reached
with a buffer of idle ticks only, trimming empties it, and the page still
hands a (now empty) recording to the history collaborator. -/
theorem c2_counterexample :
    (∀ t ∈ sAllIdle.key_list, isIdleKeystroke t = true) ∧
    sAllIdle.key_list ≠ [] ∧
    remove_trailing_idles isIdleKeystroke sAllIdle.key_list = [] ∧
    finalize_cond 2500 sAllIdle ∧
    (read_state 2500 sAllIdle).key_history = [[]] ∧
    (read_state 2500 sAllIdle).key_history.length = sAllIdle.key_history.length + 1 := by
  decide

/-- C2 as amended: in the finalization branch a stream produces no
recording exactly when its buffer is empty before trimming; a non-empty
buffer — even one whose ticks are all idle, which trimming empties — is
always handed to the history collaborator (as an empty recording in that
case). -/
theorem c2_finalize_emission (now : Nat) (s : PageState) (h : finalize_cond now s) :
    (s.key_list = [] → (read_state now s).key_history = s.key_history) ∧
    (s.key_list ≠ [] → (read_state now s).key_history =
        s.key_history ++ [remove_trailing_idles isIdleKeystroke s.key_list]) ∧
    (s.joystick_list = [] → (read_state now s).gamepad_history = s.gamepad_history) ∧
    (s.joystick_list ≠ [] → (read_state now s).gamepad_history =
        s.gamepad_history ++ [remove_trailing_idles isIdleGamepad s.joystick_list]) := by
  by_cases hk : s.key_list = [] <;> by_cases hj : s.joystick_list = [] <;>
    simp [read_state, h, hk, hj]

/-- Witness for `c2_finalize_emission`: the all-idle one-tick buffer is
emitted as a recording that trimming emptied. -/
theorem c2_finalize_emission_witness :
    (read_state 2500 sAllIdle).key_history =
      sAllIdle.key_history ++ [remove_trailing_idles isIdleKeystroke sAllIdle.key_list] :=
  (c2_finalize_emission 2500 sAllIdle (by decide)).2.1 (by decide)

/-- C3: `read_state` never appends to the gamepad stream — on every tick
the gamepad buffer is either left unchanged or cleared; at the concrete
non-finalizing tick (key 4 held at t = 100 ms) exactly one keystroke tick
is appended while the gamepad stream stays empty. -/
theorem c3_gamepad_never_appended :
    (∀ (now : Nat) (s : PageState),
        (read_state now s).joystick_list = s.joystick_list ∨
        (read_state now s).joystick_list = []) ∧
    decide (finalize_cond 100 sPress) = false ∧
    (read_state 100 sPress).key_list =
      sPress.key_list ++ [DOOMKeystroke.from_qt_keys sPress.active_keys] ∧
    (read_state 100 sPress).joystick_list = [] := by
  refine ⟨?_, by decide, by decide, by decide⟩
  intro now s
  by_cases hc : finalize_cond now s
  · by_cases hk : s.key_list = [] <;> by_cases hj : s.joystick_list = [] <;>
      simp [read_state, hc, hk, hj]
  · simp [read_state, hc]

/-- Every two's-complement image fits in 16 bits. -/
theorem u16ofInt_lt (x : Int) : u16ofInt x < 65536 := by
  unfold u16ofInt; omega

/-- The signed interpretation inverts the two's-complement image on the
signed 16-bit range. -/
theorem intOfU16_u16ofInt (x : Int) (h1 : -32768 ≤ x) (h2 : x < 32768) :
    intOfU16 (u16ofInt x) = x := by
  unfold u16ofInt intOfU16
  split <;> omega

/-- C4: for every valid keystroke tick and every valid gamepad tick,
decoding the encoding returns exactly the original tick — key slots,
modifier mask, axis values and button mask bit for bit. -/
theorem c4_round_trip (t : DOOMKeystroke) (g : DOOMGamepadTick)
    (ht : ValidKeystrokeTick t) (hg : ValidGamepadTick g) :
    decode_keystroke_tick (encode_keystroke_tick t) = .ok t ∧
    decode_gamepad_tick (encode_gamepad_tick g) = .ok g := by
  obtain ⟨⟨k1, k2, k3⟩, m⟩ := t
  obtain ⟨x, y, b⟩ := g
  obtain ⟨h1, h2, h3, h4⟩ := ht
  obtain ⟨hx1, hx2, hy1, hy2, hb⟩ := hg
  simp only at h1 h2 h3 h4 hx1 hx2 hy1 hy2 hb
  constructor
  · simp [encode_keystroke_tick, decode_keystroke_tick, h1, h2, h3, h4]
  · have hux := u16ofInt_lt x
    have huy := u16ofInt_lt y
    simp only [encode_gamepad_tick, decode_gamepad_tick]
    rw [if_pos (by omega)]
    rw [Nat.mod_add_div (u16ofInt x) 256, Nat.mod_add_div (u16ofInt y) 256,
      Nat.mod_add_div b 256]
    rw [intOfU16_u16ofInt x hx1 hx2, intOfU16_u16ofInt y hy1 hy2]

/-- Witness for `c4_round_trip` at concrete valid ticks. -/
theorem c4_round_trip_witness :
    decode_keystroke_tick (encode_keystroke_tick kW) = .ok kW ∧
    decode_gamepad_tick (encode_gamepad_tick gW) = .ok gW :=
  c4_round_trip kW gW (by decide) (by decide)

/-- C5: on both stream kinds, `remove_trailing_idles` keeps an exact
prefix of the stream whose removed complement is a suffix of idle ticks
only, and the kept part never ends in an idle tick (so exactly the
maximal trailing idle run is removed); on `[idle, active, idle, idle]` it
returns `[idle, active]`, and it empties an all-idle stream. -/
theorem c5_trim_spec :
    (∀ l : List DOOMKeystroke,
        l = remove_trailing_idles isIdleKeystroke l ++
          (l.reverse.takeWhile isIdleKeystroke).reverse ∧
        (∀ x ∈ (l.reverse.takeWhile isIdleKeystroke).reverse, isIdleKeystroke x = true) ∧
        (∀ x, (remove_trailing_idles isIdleKeystroke l).getLast? = some x →
          isIdleKeystroke x = false)) ∧
    (∀ l : List DOOMGamepadTick,
        l = remove_trailing_idles isIdleGamepad l ++
          (l.reverse.takeWhile isIdleGamepad).reverse ∧
        (∀ x ∈ (l.reverse.takeWhile isIdleGamepad).reverse, isIdleGamepad x = true) ∧
        (∀ x, (remove_trailing_idles isIdleGamepad l).getLast? = some x →
          isIdleGamepad x = false)) ∧
    remove_trailing_idles isIdleKeystroke [idleK, activeK, idleK, idleK] = [idleK, activeK] ∧
    remove_trailing_idles isIdleKeystroke [idleK, idleK] = [] :=
  ⟨fun l => remove_trailing_idles_spec isIdleKeystroke l,
   fun l => remove_trailing_idles_spec isIdleGamepad l,
   by decide, by decide⟩

/-- Witness for `c5_trim_spec` at the concrete stream `[idle, active, idle, idle]`. -/
theorem c5_trim_spec_witness :
    [idleK, activeK, idleK, idleK] =
      remove_trailing_idles isIdleKeystroke [idleK, activeK, idleK, idleK] ++
        ([idleK, activeK, idleK, idleK].reverse.takeWhile isIdleKeystroke).reverse ∧
    (∀ x ∈ ([idleK, activeK, idleK, idleK].reverse.takeWhile isIdleKeystroke).reverse,
      isIdleKeystroke x = true) ∧
    (∀ x, (remove_trailing_idles isIdleKeystroke [idleK, activeK, idleK, idleK]).getLast? =
      some x → isIdleKeystroke x = false) :=
  c5_trim_spec.1 [idleK, activeK, idleK, idleK]

/-- C6: on both stream kinds, the byte size of any stream state — hence of
every state reachable by append, trim and clear — is its length times the
fixed per-tick width. -/
theorem c6_size_invariant :
    (∀ l : List DOOMKeystroke,
        DOOMKeystrokeList.size_in_bytes l = l.length * KEYSTROKE_TICK_WIDTH) ∧
    (∀ l : List DOOMGamepadTick,
        DOOMGamepadTickList.size_in_bytes l = l.length * GAMEPAD_TICK_WIDTH) := by
  constructor
  · intro l
    induction l with
    | nil => rfl
    | cons t ts ih =>
      simp [DOOMKeystrokeList.size_in_bytes, encode_keystroke_tick,
        KEYSTROKE_TICK_WIDTH] at ih ⊢
      omega
  · intro l
    induction l with
    | nil => rfl
    | cons t ts ih =>
      simp [DOOMGamepadTickList.size_in_bytes, encode_gamepad_tick,
        GAMEPAD_TICK_WIDTH] at ih ⊢
      omega

/-- C7: `handle_gamepad_axis` records a left-stick axis value verbatim at
or above the 8000-unit dead zone and as 0 below it, and drives the digital
bit of a mapped auxiliary axis from the doubled threshold: the bit is set
exactly when the magnitude reaches `DEADZONE * 2`, all other mask bits
untouched. -/
theorem c7_dead_zone (axesMap : Nat → Option Nat) (now : Nat) (v : Int) (s : PageState) :
    ((handle_gamepad_axis axesMap now SDL_GAMEPAD_AXIS_LEFTX v s).joystick_x =
        if DEADZONE ≤ v.natAbs then v else 0) ∧
    ((handle_gamepad_axis axesMap now SDL_GAMEPAD_AXIS_LEFTY v s).joystick_y =
        if DEADZONE ≤ v.natAbs then v else 0) ∧
    (∀ axis k, axis ≠ SDL_GAMEPAD_AXIS_LEFTX → axis ≠ SDL_GAMEPAD_AXIS_LEFTY →
        axesMap axis = some (2 ^ k) →
        ((handle_gamepad_axis axesMap now axis v s).active_joystick_keys.testBit k =
            decide (DEADZONE * 2 ≤ v.natAbs) ∧
         ∀ j, j ≠ k →
            (handle_gamepad_axis axesMap now axis v s).active_joystick_keys.testBit j =
              s.active_joystick_keys.testBit j)) := by
  refine ⟨?_, ?_, ?_⟩
  · simp [handle_gamepad_axis]
  · simp [handle_gamepad_axis, SDL_GAMEPAD_AXIS_LEFTX, SDL_GAMEPAD_AXIS_LEFTY]
  · intro axis k h0 h1 hm
    simp only [handle_gamepad_axis, if_neg h0, if_neg h1, hm]
    by_cases hv : DEADZONE * 2 ≤ v.natAbs
    · simp only [if_pos hv]
      constructor
      · simp [Nat.testBit_lor, Nat.testBit_two_pow_self, hv]
      · intro j hj
        simp [Nat.testBit_lor, Nat.testBit_two_pow_of_ne (Ne.symm hj)]
    · simp only [if_neg hv]
      constructor
      · simp [Nat.testBit_ldiff, Nat.testBit_two_pow_self, hv]
      · intro j hj
        simp [Nat.testBit_ldiff, Nat.testBit_two_pow_of_ne (Ne.symm hj)]

/-- Witness for `c7_dead_zone`: auxiliary axis 4 mapped to bit 3, raw
value 20000 above the doubled threshold. -/
theorem c7_dead_zone_witness :
    (handle_gamepad_axis axMapW 60 4 20000 init_state).active_joystick_keys.testBit 3 =
      decide (DEADZONE * 2 ≤ (20000 : Int).natAbs) :=
  (((c7_dead_zone axMapW 60 20000 init_state).2.2) 4 3 (by decide) (by decide) rfl).1

/-- C8 counterexample: a left-stick X motion event of raw value 100 —
below the dead zone, with the recorded axis value 0 both before and after,
so no dead-zone threshold is crossed — still updates `last_key_update`
(from 50 to the event time 60). -/
theorem c8_counterexample :
    (handle_gamepad_axis axMapNone 60 SDL_GAMEPAD_AXIS_LEFTX 100 s8).last_key_update = 60 ∧
    s8.last_key_update = 50 ∧
    s8.joystick_x = 0 ∧
    (handle_gamepad_axis axMapNone 60 SDL_GAMEPAD_AXIS_LEFTX 100 s8).joystick_x = 0 ∧
    (100 : Int).natAbs < DEADZONE := by
  decide

/-- C8 as amended: `last_key_update` is set to the event time by every key
press or release, every mapped gamepad button press or release, and every
motion event of a left-stick or mapped auxiliary axis regardless of
dead-zone crossing; it is never changed by the sampler tick, the display
tick, an unmapped button, or an unhandled axis. -/
theorem c8_timestamp_updates (btnMap axesMap : Nat → Option Nat)
    (now key bId axis : Nat) (pressed : Bool) (v : Int) (s : PageState) :
    ((read_state now s).last_key_update = s.last_key_update) ∧
    ((update_bar now s).last_key_update = s.last_key_update) ∧
    ((keyPressEvent now key s).last_key_update = now) ∧
    ((keyReleaseEvent now key s).last_key_update = now) ∧
    (btnMap bId = none →
      (handle_gamepad_button btnMap now bId pressed s).last_key_update = s.last_key_update) ∧
    (∀ c, btnMap bId = some c →
      (handle_gamepad_button btnMap now bId pressed s).last_key_update = now) ∧
    ((axis = SDL_GAMEPAD_AXIS_LEFTX ∨ axis = SDL_GAMEPAD_AXIS_LEFTY ∨
        (∃ c, axesMap axis = some c)) →
      (handle_gamepad_axis axesMap now axis v s).last_key_update = now) ∧
    (axis ≠ SDL_GAMEPAD_AXIS_LEFTX → axis ≠ SDL_GAMEPAD_AXIS_LEFTY → axesMap axis = none →
      (handle_gamepad_axis axesMap now axis v s).last_key_update = s.last_key_update) := by
  refine ⟨?_, ?_, rfl, rfl, ?_, ?_, ?_, ?_⟩
  · by_cases hc : finalize_cond now s
    · by_cases hk : s.key_list = [] <;> by_cases hj : s.joystick_list = [] <;>
        simp [read_state, hc, hk, hj]
    · simp [read_state, hc]
  · unfold update_bar; split_ifs <;> rfl
  · intro h; simp [handle_gamepad_button, h]
  · intro c h; simp [handle_gamepad_button, h]
  · intro h
    rcases h with h | h | ⟨c, h⟩
    · simp [handle_gamepad_axis, h]
    · subst h; simp [handle_gamepad_axis, SDL_GAMEPAD_AXIS_LEFTX, SDL_GAMEPAD_AXIS_LEFTY]
    · by_cases h0 : axis = SDL_GAMEPAD_AXIS_LEFTX
      · simp [handle_gamepad_axis, h0]
      · by_cases h1 : axis = SDL_GAMEPAD_AXIS_LEFTY
        · simp [handle_gamepad_axis, h1, SDL_GAMEPAD_AXIS_LEFTX, SDL_GAMEPAD_AXIS_LEFTY]
        · simp only [handle_gamepad_axis, if_neg h0, if_neg h1, h]
  · intro h0 h1 h
    simp [handle_gamepad_axis, if_neg h0, if_neg h1, h]

/-- Witness for `c8_timestamp_updates`: an unmapped button press leaves
the timestamp alone. -/
theorem c8_timestamp_updates_witness :
    (handle_gamepad_button axMapNone 77 9 true s8).last_key_update = s8.last_key_update :=
  (c8_timestamp_updates axMapNone axMapNone 77 0 9 5 true 0 s8).2.2.2.2.1 rfl

/-- C9: the display-indicator tick `update_bar` leaves every sampler field
— the active key set, the gamepad axis and button state, the
last-input-change timestamp, both tick buffers, and both histories —
unchanged. -/
theorem c9_update_bar_frame (now : Nat) (s : PageState) :
    (update_bar now s).active_keys = s.active_keys ∧
    (update_bar now s).joystick_x = s.joystick_x ∧
    (update_bar now s).joystick_y = s.joystick_y ∧
    (update_bar now s).active_joystick_keys = s.active_joystick_keys ∧
    (update_bar now s).last_key_update = s.last_key_update ∧
    (update_bar now s).key_list = s.key_list ∧
    (update_bar now s).joystick_list = s.joystick_list ∧
    (update_bar now s).key_history = s.key_history ∧
    (update_bar now s).gamepad_history = s.gamepad_history := by
  unfold update_bar
  split_ifs <;> simp

/-- C10: a gamepad button event whose id is absent from the
SDL-button-to-code lookup leaves the whole page state untouched — the
button mask is unchanged and the last-input-change timestamp keeps its
old value. -/
theorem c10_unmapped_button_noop (btnMap : Nat → Option Nat) (now bId : Nat)
    (pressed : Bool) (s : PageState) (h : btnMap bId = none) :
    handle_gamepad_button btnMap now bId pressed s = s := by
  simp [handle_gamepad_button, h]

/-- Witness for `c10_unmapped_button_noop` with the empty lookup at button 9. -/
theorem c10_unmapped_button_noop_witness :
    handle_gamepad_button axMapNone 99 9 true init_state = init_state :=
  c10_unmapped_button_noop axMapNone 99 9 true init_state rfl
